import Mathlib

/-
Verification development for an MCP (Model Context Protocol) SSE server
exposing a single OpenStreetMap geocoding tool.

The embedding models:
  - the session registry (`transports` in src/src/server.ts): a map from
    sessionId strings to SSE transports;
  - the POST /messages handler (src/src/server.ts, app.post("/messages"));
  - the GET /sse handler (src/src/server.ts, app.get('/sse')), with the
    outcome of `server.connect` (the MCP handshake) as an oracle input;
  - the close handler registered by the /sse handler (req.on('close'));
  - the tool implementation `queryOpenStreetMap`
    (src/tools/openstreetmap.ts), with the outcome of the outbound
    `fetch` call as an oracle input.

JavaScript objects returned by the tool are modelled as a record whose
fields are `Option`s: `none` means the field is absent from the object.
JavaScript numbers produced by the builtin `parseFloat` are modelled
opaquely (`JsNumber.parseFloat s` is the number `parseFloat(s)`): float
parsing is a language builtin external to this repository, and the claims
only relate envelope fields to it structurally.
-/

namespace MCPServer

/-- JavaScript number values reaching the tool envelope. `parseFloat s`
stands for the builtin `parseFloat` applied to the string `s`; `fromJson s`
stands for a numeric literal decoded from the JSON text `s`. -/
inductive JsNumber where
  | parseFloat (s : String)
  | fromJson (s : String)
deriving DecidableEq, Repr

/-- Characters removed by JavaScript `String.prototype.trim`
(ECMA-262 WhiteSpace and LineTerminator code points, the common ones). -/
def jsWhitespace (c : Char) : Bool :=
  c = ' ' || c = '\t' || c = '\n' || c = '\r' || c = '\x0b' || c = '\x0c'
    || c.val = 0xa0 || c.val = 0xfeff || c.val = 0x2028 || c.val = 0x2029

/-- JavaScript `String.prototype.trim`: drop leading and trailing
whitespace. -/
def jsTrim (s : String) : String :=
  ⟨((s.data.dropWhile jsWhitespace).reverse.dropWhile jsWhitespace).reverse⟩

/-- One record of the Nominatim JSON array, after the code's
`as NominatimResult[]` cast (interface `NominatimResult` in
src/tools/openstreetmap.ts). `address` is the structured address object,
modelled as an association list. Optional interface fields
(`importance?`, `class?`, `type?`) are `Option`s. -/
structure NominatimResult where
  place_id : Nat
  licence : String
  osm_type : String
  osm_id : Nat
  lat : String
  lon : String
  display_name : String
  address : List (String × String)
  boundingbox : List String
  importance : Option JsNumber
  «class» : Option String
  «type» : Option String
deriving DecidableEq, Repr

/-- The JavaScript object returned by `queryOpenStreetMap`. Each field is
an `Option`; `none` means the field is absent from the returned object.
The four return sites of the source produce:
  - `{ error }` (blank query),
  - `{ query, found: false, message }` (zero results),
  - `{ query, found: true, display_name, latitude, longitude,
      address_details, osm_type, osm_id, class, type }` (a result),
  - `{ query, found: false, error }` (caught exception). -/
structure ToolResult where
  query : Option String := none
  found : Option Bool := none
  error : Option String := none
  message : Option String := none
  display_name : Option String := none
  latitude : Option JsNumber := none
  longitude : Option JsNumber := none
  address_details : Option (List (String × String)) := none
  osm_type : Option String := none
  osm_id : Option Nat := none
  «class» : Option String := none
  «type» : Option String := none
deriving DecidableEq, Repr

/-- Oracle for the outbound `fetch` to the Nominatim API: every way the
awaited calls in the `try` block of `queryOpenStreetMap` can turn out.
  - `fetchThrows msg`: `fetch` rejects with an `Error` whose message is
    `msg`;
  - `fetchThrowsNonError`: `fetch` rejects with a non-`Error` value
    (the code then uses its fallback message);
  - `httpError st stTxt body`: `fetch` resolves but `response.ok` is
    false, with status `st`, statusText `stTxt` and body text `body`;
  - `jsonThrows msg`: `response.ok` holds but `response.json()` rejects
    with an `Error` whose message is `msg`;
  - `jsonNull`: `response.json()` resolves to `null` (the `!data` guard);
  - `okJson data`: `response.json()` resolves to the array `data`. -/
inductive FetchOutcome where
  | fetchThrows (msg : String)
  | fetchThrowsNonError
  | httpError (st : Nat) (stTxt : String) (body : String)
  | jsonThrows (msg : String)
  | jsonNull
  | okJson (data : List NominatimResult)
deriving DecidableEq, Repr

/-- Shallow embedding of `queryOpenStreetMap` (src/tools/openstreetmap.ts).
The `fetch` oracle says how the outbound HTTP interaction turns out; the
returned `Nat` counts how many times `fetch` was invoked. The function is
total: every thrown error in the `try` block is caught by the `catch`
block, which returns the `{ query, found: false, error }` envelope. -/
def queryOpenStreetMap (fetch : FetchOutcome) (query : String) :
    ToolResult × Nat :=
  -- if (!query || query.trim().length === 0)
  if query = "" ∨ (jsTrim query).length = 0 then
    ({ error := some "Query parameter cannot be empty." }, 0)
  else
    match fetch with
    | .fetchThrows msg =>
        ({ query := some query, found := some false,
           error := some ("Failed to query OpenStreetMap: " ++ msg) }, 1)
    | .fetchThrowsNonError =>
        ({ query := some query, found := some false,
           error := some
             "Failed to query OpenStreetMap: An unknown error occurred" },
         1)
    | .httpError st stTxt _body =>
        -- throw new Error(`Nominatim API request failed with status
        -- ${response.status}: ${response.statusText}`), then caught below
        ({ query := some query, found := some false,
           error := some ("Failed to query OpenStreetMap: " ++
             "Nominatim API request failed with status " ++ toString st ++
             ": " ++ stTxt) }, 1)
    | .jsonThrows msg =>
        ({ query := some query, found := some false,
           error := some ("Failed to query OpenStreetMap: " ++ msg) }, 1)
    | .jsonNull =>
        -- `!data` is true for null, so the no-results branch runs
        ({ query := some query, found := some false,
           message := some ("Could not find location information for \"" ++
             query ++ "\".") }, 1)
    | .okJson [] =>
        ({ query := some query, found := some false,
           message := some ("Could not find location information for \"" ++
             query ++ "\".") }, 1)
    | .okJson (result :: _) =>
        ({ query := some query, found := some true,
           display_name := some result.display_name,
           latitude := some (JsNumber.parseFloat result.lat),
           longitude := some (JsNumber.parseFloat result.lon),
           address_details := some result.address,
           osm_type := some result.osm_type,
           osm_id := some result.osm_id,
           «class» := result.«class»,
           «type» := result.«type» }, 1)

/-- An `SSEServerTransport` as far as the registry is concerned: it
carries its `sessionId` and the message-posting path it was constructed
with (`new SSEServerTransport('/messages', res)`). -/
structure Transport where
  sessionId : String
  messagesPath : String := "/messages"
deriving DecidableEq, Repr

/-- The `transports` registry of src/src/server.ts:
`{ [sessionId: string]: SSEServerTransport }`, modelled as an association
list with unique keys. -/
abbrev Registry : Type := List (String × Transport)

/-- `transports[sessionId]` — property lookup on the registry object. -/
def lookupReg (k : String) : Registry → Option Transport
  | [] => none
  | (k', t) :: rest => if k' = k then some t else lookupReg k rest

/-- `delete transports[sessionId]` — remove the key from the registry. -/
def eraseReg (k : String) : Registry → Registry
  | [] => []
  | (k', t) :: rest =>
      if k' = k then eraseReg k rest else (k', t) :: eraseReg k rest

/-- `transports[transport.sessionId] = transport` — assignment on the
registry object (overwrites any previous binding of the key). -/
def insertReg (k : String) (t : Transport) (reg : Registry) : Registry :=
  (k, t) :: eraseReg k reg

/-- Oracle for `await transport.handleMessage(req.body)` in the
POST /messages handler: it either resolves, or rejects with an error. -/
inductive HandleOutcome where
  | ok
  | throws (msg : String)
deriving DecidableEq, Repr

/-- What the POST /messages handler produces: an HTTP status, a body
text, and the registry as it stands afterwards. -/
structure PostOutcome where
  status : Nat
  body : String
  registry : Registry
deriving DecidableEq, Repr

/-- Shallow embedding of the `app.post("/messages", ...)` handler
(src/src/server.ts). `sid` is the `sessionId` query parameter, `h` is the
oracle for `transport.handleMessage(req.body)` (used only when a
transport is found). The handler never mutates the registry. -/
def postMessages (reg : Registry) (sid : String) (h : HandleOutcome) :
    PostOutcome :=
  match lookupReg sid reg with
  | some _ =>
      match h with
      | .ok => ⟨200, "OK", reg⟩
      | .throws _ => ⟨500, "Error processing message", reg⟩
  | none => ⟨404, "Session not found or inactive", reg⟩

/-- The JSON-ish JavaScript values a tool argument can be, for modelling
zod validation of the `query` parameter. -/
inductive JsValue where
  | str (s : String)
  | num (n : Int)
  | boolean (b : Bool)
  | null
  | undef
deriving DecidableEq, Repr

/-- `z.string()` validation: parsing succeeds exactly on string values,
of any length (`.describe(...)` only attaches metadata). -/
def zodStringParse : JsValue → Option String
  | .str s => some s
  | _ => none

/-- The parameter schema of the registered tool:
`{ query: z.string().describe(...) }` — the value bound to `query` must
pass `z.string()`. -/
def queryParamAccepts (v : JsValue) : Bool :=
  (zodStringParse v).isSome

/-- One tool registration made through `server.tool(name, schema, cb)`. -/
structure ToolRegistration where
  name : String
  queryDescription : String
deriving DecidableEq, Repr

/-- The `McpServer` built by the /sse handler, as configured by the code:
its constructor options and the tools registered on it. -/
structure McpServerModel where
  name : String
  version : String
  tools : List ToolRegistration
deriving DecidableEq, Repr

/-- The fresh `McpServer` the /sse handler constructs: name and version
from the constructor call, and the single `server.tool(...)` registration
that follows it. -/
def mkSseServer : McpServerModel :=
  { name := "openstreetmap-mcp-server"
    version := "1.0.0"
    tools := [{ name := "query_openstreetmap"
                queryDescription :=
                  "The place name, address, or landmark to search for." }] }

/-- What one run of the `app.get('/sse', ...)` handler leaves behind:
the server it constructed, the registry as it stands when the handler
returns, whether the handshake succeeded, whether the handler ended the
response (`res.end()`), and whether the `req.on('close', ...)` cleanup
observer was registered. -/
structure SseOutcome where
  server : McpServerModel
  registry : Registry
  handshakeOk : Bool
  connectionEnded : Bool
  closeHandlerRegistered : Bool
deriving DecidableEq, Repr

/-- Shallow embedding of the `app.get('/sse', ...)` handler
(src/src/server.ts). `t` is the transport constructed for this
connection (its `sessionId` is minted by the SDK), `connectOk` is the
oracle for `await server.connect(transport)`. The handler inserts the
transport into the registry before the handshake; on handshake failure it
ends the response and returns — the `req.on('close')` observer has not
been registered at that point, and nothing deletes the registry entry. -/
def sseHandler (reg : Registry) (t : Transport) (connectOk : Bool) :
    SseOutcome :=
  let server := mkSseServer
  let reg1 := insertReg t.sessionId t reg
  if connectOk then
    { server := server, registry := reg1, handshakeOk := true
      connectionEnded := false, closeHandlerRegistered := true }
  else
    { server := server, registry := reg1, handshakeOk := false
      connectionEnded := true, closeHandlerRegistered := false }

/-- The `req.on('close', ...)` callback registered after a successful
handshake: `delete transports[transport.sessionId]`, synchronously. -/
def closeHandler (reg : Registry) (t : Transport) : Registry :=
  eraseReg t.sessionId reg

/-- A concrete Nominatim record used to instantiate theorems with
hypotheses. -/
def sampleResult : NominatimResult :=
  { place_id := 1
    licence := "Data ODbL"
    osm_type := "way"
    osm_id := 5013364
    lat := "48.8582599"
    lon := "2.2945006"
    display_name := "Eiffel Tower, Paris, France"
    address := [("attraction", "Eiffel Tower"), ("city", "Paris")]
    boundingbox := ["48.85", "48.86"]
    importance := none
    «class» := some "tourism"
    «type» := some "attraction" }

/-- A second concrete Nominatim record, distinct from `sampleResult`. -/
def sampleResult2 : NominatimResult :=
  { place_id := 2
    licence := "Data ODbL"
    osm_type := "node"
    osm_id := 77
    lat := "40.0"
    lon := "-3.0"
    display_name := "Somewhere Else"
    address := [("city", "Elsewhere")]
    boundingbox := []
    importance := none
    «class» := none
    «type» := none }

/-! ## Helper lemmas -/

/-- Deleting a key from the registry makes lookups of that key fail. -/
theorem lookupReg_eraseReg (k : String) (reg : Registry) :
    lookupReg k (eraseReg k reg) = none := by
  induction reg with
  | nil => rfl
  | cons p rest ih =>
      obtain ⟨k', t⟩ := p
      by_cases h : k' = k
      · simp [eraseReg, h, ih]
      · simp [eraseReg, h, lookupReg, ih]

/-- A query whose JS-trim is nonempty fails the blank-query guard of
`queryOpenStreetMap`. -/
theorem nonblank_guard {q : String} (h : (jsTrim q).length ≠ 0) :
    ¬ (q = "" ∨ (jsTrim q).length = 0) := by
  rintro (rfl | hl)
  · exact h (by decide)
  · exact h hl

/-! ## Claim theorems -/

/-- Claim C1 (code bug): the claim says that after a failed handshake no
entry for the sessionId remains in the transports registry. On a concrete
failed-handshake run the code ends the response, but the registry entry
inserted before the handshake is still present, and the `req.on('close')`
cleanup observer was never registered, so nothing will ever remove it. -/
theorem sse_failed_handshake_entry_remains :
    (sseHandler [] ⟨"s1", "/messages"⟩ false).connectionEnded = true ∧
    lookupReg "s1" (sseHandler [] ⟨"s1", "/messages"⟩ false).registry =
      some ⟨"s1", "/messages"⟩ ∧
    (sseHandler [] ⟨"s1", "/messages"⟩ false).closeHandlerRegistered =
      false := by
  decide

/-- Claim C2: POST /messages responds 404 when the sessionId is not a key
of the registry (regardless of the payload or of what handleMessage would
do), 200 when it is a key and handleMessage resolves, and 500 when it is
a key and handleMessage rejects. -/
theorem postMessages_status_spec (reg : Registry) (sid : String)
    (h : HandleOutcome) :
    (postMessages reg sid h).status =
      if lookupReg sid reg = none then 404
      else match h with
        | .ok => 200
        | .throws _ => 500 := by
  unfold postMessages
  cases hl : lookupReg sid reg <;> cases h <;> simp [hl]

/-- Claim C3: the close handler removes the sessionId from the registry,
so a subsequent POST /messages with that sessionId finds no transport and
responds 404, whatever the payload would have done. -/
theorem close_evicts_session (reg : Registry) (t : Transport)
    (h : HandleOutcome) :
    lookupReg t.sessionId (closeHandler reg t) = none ∧
    (postMessages (closeHandler reg t) t.sessionId h).status = 404 := by
  have he := lookupReg_eraseReg t.sessionId reg
  exact ⟨he, by simp [postMessages, closeHandler, he]⟩

/-- Claim C6: the POST /messages handler returns the registry unchanged
in every outcome (it never adds or removes entries), and when the
sessionId is registered and handleMessage throws, it responds 500 with
the session's entry still present afterwards. -/
theorem postMessages_frame (reg : Registry) (sid : String)
    (h : HandleOutcome) :
    (postMessages reg sid h).registry = reg ∧
    ((lookupReg sid reg).isSome = true → ∀ m, h = HandleOutcome.throws m →
      (postMessages reg sid h).status = 500 ∧
      lookupReg sid (postMessages reg sid h).registry =
        lookupReg sid reg) := by
  constructor
  · unfold postMessages
    cases lookupReg sid reg <;> cases h <;> rfl
  · intro hs m hm
    subst hm
    cases hl : lookupReg sid reg
    · rw [hl] at hs
      simp at hs
    · simp [postMessages, hl]

/-- Witness for C6 at a concrete registry, session and thrown error. -/
theorem postMessages_frame_witness :
    (postMessages [("s1", ⟨"s1", "/messages"⟩)] "s1"
      (HandleOutcome.throws "boom")).registry =
        [("s1", (⟨"s1", "/messages"⟩ : Transport))] ∧
    (postMessages [("s1", ⟨"s1", "/messages"⟩)] "s1"
      (HandleOutcome.throws "boom")).status = 500 := by
  have h := postMessages_frame [("s1", ⟨"s1", "/messages"⟩)] "s1"
    (HandleOutcome.throws "boom")
  exact ⟨h.1, (h.2 (by decide) "boom" rfl).1⟩

/-- Claim C4, counterexample: the claim says a blank query yields the
envelope `{found: false, error: "Query parameter cannot be empty."}`, but
on the empty query the code returns `{error: ...}` alone — the object has
no `found` (and no `query`) field. -/
theorem blank_query_envelope_ce :
    ¬ ((queryOpenStreetMap (FetchOutcome.okJson []) "").1 =
        { found := some false,
          error := some "Query parameter cannot be empty." }) := by
  decide

/-- Claim C4 as amended: for every empty or whitespace-only query,
`queryOpenStreetMap` returns the envelope
`{error: "Query parameter cannot be empty."}` (with no other fields) and
invokes `fetch` zero times, whatever the fetch oracle would have done. -/
theorem blank_query_short_circuits (q : String)
    (h : q = "" ∨ q.data.all jsWhitespace = true) (f : FetchOutcome) :
    queryOpenStreetMap f q =
      ({ error := some "Query parameter cannot be empty." }, 0) := by
  have hguard : q = "" ∨ (jsTrim q).length = 0 := by
    rcases h with h | h
    · exact Or.inl h
    · right
      have hd : q.data.dropWhile jsWhitespace = [] := by
        rw [List.dropWhile_eq_nil_iff]
        intro x hx
        exact List.all_eq_true.mp h x hx
      unfold jsTrim
      rw [hd]
      rfl
  unfold queryOpenStreetMap
  rw [if_pos hguard]

/-- Witness for C4 at a concrete whitespace-only query. -/
theorem blank_query_short_circuits_witness :
    (" \t " = "" ∨ " \t ".data.all jsWhitespace = true) ∧
    queryOpenStreetMap (FetchOutcome.okJson []) " \t " =
      ({ error := some "Query parameter cannot be empty." }, 0) :=
  ⟨Or.inr (by decide),
   blank_query_short_circuits " \t " (Or.inr (by decide))
     (FetchOutcome.okJson [])⟩

/-- Claim C5, counterexample: the claim says a collaborator failure is
converted to an envelope of the same shape as the input-error envelope,
differing only in message text. The input-error envelope is
`{error: ...}` alone, but when `fetch` throws the code returns
`{query, found: false, error}` — no choice of message text makes the two
shapes agree, because the failure envelope carries a `query` field. -/
theorem collab_error_shape_ce :
    ¬ (∃ m : String,
        (queryOpenStreetMap (FetchOutcome.fetchThrows "boom") "Paris").1 =
          { error := some m }) := by
  rintro ⟨m, hm⟩
  have hq : ((queryOpenStreetMap (FetchOutcome.fetchThrows "boom")
      "Paris").1).query = some "Paris" := by decide
  rw [hm] at hq
  exact Option.noConfusion hq

/-- Claim C5 as amended: for every non-blank query, each collaborator
failure — fetch rejecting (with an Error or not), a non-2xx HTTP status,
or an unparseable response body — is caught and converted to the
structured envelope `{query, found: false, error}`, whose message text
identifies the failure; no exception escapes (the embedding is a total
function into envelopes). The envelope's shape differs from the
input-error envelope by also carrying `query` and `found: false`. -/
theorem collab_failure_caught (q : String) (h : (jsTrim q).length ≠ 0) :
    (∀ m, queryOpenStreetMap (FetchOutcome.fetchThrows m) q =
      ({ query := some q, found := some false,
         error := some ("Failed to query OpenStreetMap: " ++ m) }, 1)) ∧
    queryOpenStreetMap FetchOutcome.fetchThrowsNonError q =
      ({ query := some q, found := some false,
         error := some
           "Failed to query OpenStreetMap: An unknown error occurred" },
       1) ∧
    (∀ st stTxt body,
      queryOpenStreetMap (FetchOutcome.httpError st stTxt body) q =
        ({ query := some q, found := some false,
           error := some ("Failed to query OpenStreetMap: " ++
             "Nominatim API request failed with status " ++ toString st ++
             ": " ++ stTxt) }, 1)) ∧
    (∀ m, queryOpenStreetMap (FetchOutcome.jsonThrows m) q =
      ({ query := some q, found := some false,
         error := some ("Failed to query OpenStreetMap: " ++ m) }, 1)) := by
  have hguard := nonblank_guard h
  refine ⟨?_, ?_, ?_, ?_⟩ <;>
    · intros
      unfold queryOpenStreetMap
      rw [if_neg hguard]

/-- Witness for C5 at a concrete query and a concrete fetch rejection. -/
theorem collab_failure_caught_witness :
    (jsTrim "Paris").length ≠ 0 ∧
    queryOpenStreetMap (FetchOutcome.fetchThrows "boom") "Paris" =
      ({ query := some "Paris", found := some false,
         error := some ("Failed to query OpenStreetMap: " ++ "boom") },
       1) :=
  ⟨by decide, (collab_failure_caught "Paris" (by decide)).1 "boom"⟩

/-- Claim C7: on a successful upstream response with zero results, the
tool returns exactly the envelope `{query, found: false, message}` (no
other fields), and the message names the query: it is the string
`Could not find location information for "<query>".`, which contains the
query verbatim. -/
theorem no_results_envelope (q : String) (h : (jsTrim q).length ≠ 0) :
    queryOpenStreetMap (FetchOutcome.okJson []) q =
      ({ query := some q, found := some false,
         message := some ("Could not find location information for \"" ++
           q ++ "\".") }, 1) ∧
    (∃ pre post, ("Could not find location information for \"" ++ q ++
      "\".") = pre ++ q ++ post) := by
  refine ⟨?_, ⟨"Could not find location information for \"", "\".", rfl⟩⟩
  unfold queryOpenStreetMap
  rw [if_neg (nonblank_guard h)]

/-- Witness for C7 at a concrete query. -/
theorem no_results_envelope_witness :
    (jsTrim "Atlantis").length ≠ 0 ∧
    queryOpenStreetMap (FetchOutcome.okJson []) "Atlantis" =
      ({ query := some "Atlantis", found := some false,
         message := some ("Could not find location information for \"" ++
           "Atlantis" ++ "\".") }, 1) :=
  ⟨by decide, (no_results_envelope "Atlantis" (by decide)).1⟩

/-- Claim C8: on a successful upstream response with at least one result,
the tool returns the envelope `{query, found: true, display_name,
latitude, longitude, address_details, osm_type, osm_id, class, type}`,
where latitude and longitude are `parseFloat` of the result's `lat` and
`lon` strings and `address_details` is the result's `address` mapping. -/
theorem success_envelope (q : String) (h : (jsTrim q).length ≠ 0)
    (result : NominatimResult) (rest : List NominatimResult) :
    queryOpenStreetMap (FetchOutcome.okJson (result :: rest)) q =
      ({ query := some q, found := some true,
         display_name := some result.display_name,
         latitude := some (JsNumber.parseFloat result.lat),
         longitude := some (JsNumber.parseFloat result.lon),
         address_details := some result.address,
         osm_type := some result.osm_type,
         osm_id := some result.osm_id,
         «class» := result.«class»,
         «type» := result.«type» }, 1) := by
  unfold queryOpenStreetMap
  rw [if_neg (nonblank_guard h)]

/-- Witness for C8 at a concrete query and result. -/
theorem success_envelope_witness :
    (jsTrim "Eiffel Tower, Paris").length ≠ 0 ∧
    queryOpenStreetMap (FetchOutcome.okJson [sampleResult])
      "Eiffel Tower, Paris" =
      ({ query := some "Eiffel Tower, Paris", found := some true,
         display_name := some sampleResult.display_name,
         latitude := some (JsNumber.parseFloat sampleResult.lat),
         longitude := some (JsNumber.parseFloat sampleResult.lon),
         address_details := some sampleResult.address,
         osm_type := some sampleResult.osm_type,
         osm_id := some sampleResult.osm_id,
         «class» := sampleResult.«class»,
         «type» := sampleResult.«type» }, 1) :=
  ⟨by decide,
   success_envelope "Eiffel Tower, Paris" (by decide) sampleResult []⟩

/-- Claim C9, counterexample: the claim says the registered tool's
parameter schema requires `query` to be a non-empty string, but the
schema is `z.string()`, which accepts the empty string: validation of a
string value never fails, so acceptance does not imply non-emptiness. -/
theorem query_schema_accepts_empty_string :
    ¬ (∀ v : JsValue, queryParamAccepts v = true →
        ∃ s, v = JsValue.str s ∧ s ≠ "") := by
  intro hAll
  obtain ⟨s, hv, hne⟩ := hAll (JsValue.str "") rfl
  injection hv with h
  exact hne h.symm

/-- Claim C9 as amended: every run of the /sse handler constructs the
same freshly configured server, with exactly one registered tool, named
"query_openstreetmap", whose parameter schema accepts exactly the string
values — any string, the empty string included (blank queries are
rejected at invocation time by the tool body, not by the schema). -/
theorem sse_registers_single_string_tool (reg : Registry) (t : Transport)
    (connectOk : Bool) :
    (sseHandler reg t connectOk).server = mkSseServer ∧
    mkSseServer.tools.map ToolRegistration.name =
      ["query_openstreetmap"] ∧
    (∀ v, queryParamAccepts v = true ↔ ∃ s, v = JsValue.str s) := by
  refine ⟨?_, rfl, ?_⟩
  · unfold sseHandler
    cases connectOk <;> rfl
  · intro v
    cases v <;> simp [queryParamAccepts, zodStringParse]

/-- Claim C10: when the parsed JSON array has more than one element, the
tool behaves exactly as if only the first element had been returned; for
a non-blank query the success envelope is built from that first element
(its `display_name`, with `found: true`). -/
theorem first_result_only (q : String) (r : NominatimResult)
    (rest : List NominatimResult) :
    queryOpenStreetMap (FetchOutcome.okJson (r :: rest)) q =
      queryOpenStreetMap (FetchOutcome.okJson [r]) q ∧
    ((jsTrim q).length ≠ 0 →
      ((queryOpenStreetMap (FetchOutcome.okJson (r :: rest)) q).1
        ).display_name = some r.display_name ∧
      ((queryOpenStreetMap (FetchOutcome.okJson (r :: rest)) q).1
        ).found = some true) := by
  constructor
  · rfl
  · intro h
    unfold queryOpenStreetMap
    rw [if_neg (nonblank_guard h)]
    exact ⟨rfl, rfl⟩

/-- Witness for C10 at a concrete query and a two-element array. -/
theorem first_result_only_witness :
    queryOpenStreetMap (FetchOutcome.okJson [sampleResult, sampleResult2])
      "Paris" =
      queryOpenStreetMap (FetchOutcome.okJson [sampleResult]) "Paris" ∧
    ((queryOpenStreetMap (FetchOutcome.okJson
        [sampleResult, sampleResult2]) "Paris").1).display_name =
      some sampleResult.display_name :=
  ⟨(first_result_only "Paris" sampleResult [sampleResult2]).1,
   ((first_result_only "Paris" sampleResult [sampleResult2]).2
      (by decide)).1⟩

end MCPServer
